import Mathlib

/-!
Formal model of the trading-service core.

Shallow embedding of the stat-arb pair-trading backend:

* `backend/services/signal_engine.py` — entry/exit predicates and the
  z-score computation (pure numerics, embedded over `ℚ`; the float `nan`
  of an unavailable RSI or an infinite half-life is embedded as `none`);
* `backend/engine/pair_job.py` — the per-pair trading cycle, embedded as
  an effect-trace function (`handle_entry`, `run_pair_cycle`), plus the
  equity bookkeeping performed by the entry and exit paths;
* `backend/engine/position_sync.py` — the startup reconciler;
* `backend/services/lighter_client.py` — the exchange client contract,
  with the mock-mode instance.

Numeric convention: Python floats are modelled as rationals.  The sample
standard deviation `σ` (a square root, hence irrational) is carried as its
square `σ²`: the code only ever tests `σ = 0 ∨ isnan σ` before dividing,
and `σ = 0 ↔ σ² = 0`, `isnan σ ↔ isnan σ²` (NaN arises exactly when the
window holds at most one point, `ddof = 1`).
-/

namespace TradingService

/-! ### Signal engine (`signal_engine.py`) -/

/-- Result of `compute_signals` for a single point in time.
`half_life = none` embeds `+inf` (not mean-reverting / too few points);
`rsi = none` embeds `nan` (fewer than `period + 2` values);
`spread_var` carries `σ²` with `none` for a NaN `σ`. -/
structure SignalResult where
  z_score : ℚ
  hedge : ℚ
  half_life : Option ℚ
  rsi : Option ℚ
  current_spread : ℚ
  spread_mean : ℚ
  spread_var : Option ℚ
deriving DecidableEq, Repr

/-- Entry decision (`EntrySignal` dataclass). -/
structure EntrySignal where
  should_enter : Bool
  direction : ℤ := 0
  skip_reason : Option String := none
  notional : ℚ := 0
deriving DecidableEq, Repr

/-- Exit decision (`ExitSignal` dataclass). -/
structure ExitSignal where
  should_exit : Bool
  exit_reason : Option String := none
  unrealized_pnl : ℚ := 0
  unrealized_pct : ℚ := 0
deriving DecidableEq, Repr

/-- The half-life filter test `0 < half_life <= max_half_life`; an infinite
half-life (`none`) never passes. -/
def hl_in_range (hl : Option ℚ) (max_half_life : ℚ) : Bool :=
  match hl with
  | some h => decide (0 < h) && decide (h ≤ max_half_life)
  | none => false

/-- The RSI band violation `rsi < rsi_lower or rsi > rsi_upper`; a NaN RSI
(`none`) never blocks (the code guards with `not np.isnan`). -/
def rsi_blocks (r : Option ℚ) (rsi_lower rsi_upper : ℚ) : Bool :=
  match r with
  | some x => decide (x < rsi_lower) || decide (x > rsi_upper)
  | none => false

/-- `signal_engine.evaluate_entry`. -/
def evaluate_entry (signals : SignalResult) (entry_z max_half_life rsi_upper rsi_lower
    current_equity equity_floor leverage : ℚ) : EntrySignal :=
  let z := signals.z_score
  if ¬ (|z| > entry_z) then
    { should_enter := false, skip_reason := some "no_signal" }
  else if max_half_life > 0 ∧ hl_in_range signals.half_life max_half_life = false then
    { should_enter := false, skip_reason := some "half_life" }
  else if (rsi_lower > 0 ∨ rsi_upper < 100) ∧ rsi_blocks signals.rsi rsi_lower rsi_upper = true then
    { should_enter := false, skip_reason := some "rsi" }
  else if current_equity < equity_floor then
    { should_enter := false, skip_reason := some "equity_floor" }
  else
    { should_enter := true,
      direction := if z > entry_z then -1 else 1,
      skip_reason := none,
      notional := current_equity * leverage }

/-- Unrealized spread P&L of an open position (`evaluate_exit`, first block). -/
def exit_unreal_pnl (position_direction : ℤ) (entry_spread entry_price_a entry_price_b
    entry_hedge entry_notional current_price_a current_price_b : ℚ) : ℚ :=
  let exit_spread := current_price_a - entry_hedge * current_price_b
  let spread_change := exit_spread - entry_spread
  let dollar_per_unit := entry_price_a + |entry_hedge| * entry_price_b
  let spread_units := if dollar_per_unit ≠ 0 then entry_notional / dollar_per_unit else 0
  (position_direction : ℚ) * spread_change * spread_units

/-- Unrealized percentage (`unreal_pct`), guarded against zero equity. -/
def exit_unreal_pct (unreal_pnl current_equity : ℚ) : ℚ :=
  if current_equity ≠ 0 then unreal_pnl / current_equity * 100 else 0

/-- `signal_engine.evaluate_exit`. -/
def evaluate_exit (signals : SignalResult) (position_direction : ℤ)
    (entry_spread entry_price_a entry_price_b entry_hedge entry_notional
     current_equity exit_z stop_z stop_loss_pct current_price_a current_price_b : ℚ) :
    ExitSignal :=
  let z := signals.z_score
  let unreal_pnl := exit_unreal_pnl position_direction entry_spread entry_price_a entry_price_b
    entry_hedge entry_notional current_price_a current_price_b
  let unreal_pct := exit_unreal_pct unreal_pnl current_equity
  if stop_loss_pct > 0 ∧ unreal_pct ≤ -stop_loss_pct then
    { should_exit := true, exit_reason := some "stop_loss",
      unrealized_pnl := unreal_pnl, unrealized_pct := unreal_pct }
  else if position_direction = 1 ∧ (z > -exit_z ∨ z > stop_z) then
    { should_exit := true,
      exit_reason := if z > -exit_z then some "signal" else some "stop_z",
      unrealized_pnl := unreal_pnl, unrealized_pct := unreal_pct }
  else if position_direction = -1 ∧ (z < exit_z ∨ z < -stop_z) then
    { should_exit := true,
      exit_reason := if z < exit_z then some "signal" else some "stop_z",
      unrealized_pnl := unreal_pnl, unrealized_pct := unreal_pct }
  else
    { should_exit := false, exit_reason := none,
      unrealized_pnl := unreal_pnl, unrealized_pct := unreal_pct }

/-! ### Z-score computation (`compute_zscore_value`) -/

/-- Python slice `l[-w:]` (note `l[-0:]` is the whole list). -/
def py_last_window (w : ℕ) (l : List ℚ) : List ℚ :=
  if w = 0 then l else l.drop (l.length - w)

/-- `np.mean` on a window (used only on nonempty windows in reachable code). -/
def np_mean (l : List ℚ) : ℚ := l.sum / (l.length : ℚ)

/-- `np.std(·, ddof=1)` squared; `none` embeds the NaN produced on windows
with at most one point (0/0 in the `ddof = 1` divisor). -/
def np_sample_var (l : List ℚ) : Option ℚ :=
  if l.length ≤ 1 then none
  else some ((l.map (fun x => (x - np_mean l) ^ 2)).sum / ((l.length : ℚ) - 1))

/-- The z value returned by `compute_zscore_value`: `zero` is the guard
branch (`σ = 0` or NaN); `overStd num var` denotes the real number
`num / sqrt var` from the division branch (`var > 0`). -/
inductive ZVal where
  | zero : ZVal
  | overStd (num : ℚ) (var : ℚ) : ZVal
deriving DecidableEq, Repr

/-- `signal_engine.compute_zscore_value`, returning
`(z, current_spread, mean, σ²)`.  The result is `none` when the input
spread series is empty: there `float(spread[-1])` raises `IndexError`
and the function returns nothing at all. -/
def compute_zscore_value (prices_a prices_b : List ℚ) (hr : ℚ) (window : ℕ) :
    Option (ZVal × ℚ × ℚ × Option ℚ) :=
  let spread := List.zipWith (fun x y => x - hr * y) prices_a prices_b
  let w := py_last_window window spread
  let mean := np_mean w
  let var := np_sample_var w
  match spread.getLast? with
  | none => none
  | some current =>
    match var with
    | none => some (ZVal.zero, current, mean, none)
    | some v =>
      if v = 0 then some (ZVal.zero, current, mean, some 0)
      else some (ZVal.overStd (current - mean) v, current, mean, some v)

/-! ### Data model rows (`backend/models`) -/

/-- The `TradingPair` configuration fields consumed by the cycle and the
reconciler.  `twap_minutes` — Modelled from the spec: the field
`twap_minutes ≥ 0` of the TradingPair data model is read by
`pair_job._place_pair_order` and asserted (default 0) by
`tests/test_twap.py`, but is absent from `models/trading_pair.py`. -/
structure Pair where
  id : ℕ
  lighter_market_a : ℤ
  lighter_market_b : ℤ
  entry_z : ℚ := 2
  exit_z : ℚ := 1/2
  stop_z : ℚ := 4
  max_half_life : ℚ := 50
  rsi_upper : ℚ := 70
  rsi_lower : ℚ := 20
  stop_loss_pct : ℚ := 10
  position_size_pct : ℚ := 50
  leverage : ℚ := 5
  min_equity_pct : ℚ := 40
  twap_minutes : ℕ := 0
  is_enabled : Bool := true
deriving DecidableEq, Repr

/-- An `OpenPosition` row (`models/position.py`), entry snapshot fields. -/
structure PositionRow where
  pair_id : ℕ
  direction : ℤ
  entry_z : ℚ
  entry_spread : ℚ
  entry_price_a : ℚ
  entry_price_b : ℚ
  entry_hedge : ℚ
  entry_notional : ℚ
deriving DecidableEq, Repr

/-! ### Exchange client contract (`lighter_client.py`) -/

/-- `OrderResult` dataclass (fields used by the cycle). -/
structure OrderResult where
  success : Bool
  order_id : Option String := none
  error : Option String := none
deriving DecidableEq, Repr

/-- One entry of `get_positions()`: `side_long` embeds `side == "long"`. -/
structure ExchangePos where
  market_index : ℤ
  side_long : Bool
  size : ℚ
  entry_price : ℚ
deriving DecidableEq, Repr

/-- The abstract exchange-client behaviour a cycle consumes: balance read,
the two order-placement operations, cancellation, and the position read. -/
structure ClientModel where
  balance : ℚ
  place_order : ℤ → ℚ → ℚ → Bool → OrderResult
  place_twap : ℤ → ℚ → ℚ → Bool → ℕ → OrderResult
  cancel_order : ℤ → Option String → Bool
  get_positions : List ExchangePos

/-- Mock mode of `LighterClient` (SDK unavailable): orders report synthetic
success, cancel succeeds, balance is 99999.0, and `get_positions` is empty. -/
def mock_client : ClientModel where
  balance := 99999
  place_order := fun _ _ _ _ => { success := true, order_id := some "mock" }
  place_twap := fun _ _ _ _ _ => { success := true, order_id := some "mock-twap" }
  cancel_order := fun _ _ => true
  get_positions := []

/-- `pair_job._place_pair_order`: TWAP iff `twap_minutes > 0`, else an
immediate-or-cancel market order. -/
def place_pair_order (c : ClientModel) (pair : Pair) (market : ℤ)
    (base_amount price : ℚ) (is_ask : Bool) : OrderResult :=
  if pair.twap_minutes > 0 then c.place_twap market base_amount price is_ask pair.twap_minutes
  else c.place_order market base_amount price is_ask

/-! ### The per-pair cycle as an effect trace (`pair_job.py`) -/

/-- Observable effects of one cycle invocation: JobLog rows, exchange
calls, database writes, operator notifications. -/
inductive Effect where
  | jobLog (status : String) (action : Option String) : Effect
  | fetchMarketData : Effect
  | getBalance : Effect
  | equityWrite (value : ℚ) : Effect
  | placeLeg (market : ℤ) (is_ask : Bool) (ok : Bool) : Effect
  | cancelLeg (market : ℤ) : Effect
  | getPositionsCall : Effect
  | createPosition (row : PositionRow) : Effect
  | notifyOp : Effect
deriving DecidableEq, Repr

/-- `pair_job._rollback_partial_fill`: cancel the successful leg when the
sibling failed; a failed cancellation logs `<stage>_rollback_failed`. -/
def rollback_effects (c : ClientModel) (pair : Pair) (result_a result_b : OrderResult)
    (stage : String) : List Effect :=
  if result_a.success = true ∧ result_b.success = false then
    Effect.cancelLeg pair.lighter_market_a ::
      (if c.cancel_order pair.lighter_market_a result_a.order_id = false then
        [Effect.jobLog "error" (some (stage ++ "_rollback_failed"))]
      else [])
  else if result_b.success = true ∧ result_a.success = false then
    Effect.cancelLeg pair.lighter_market_b ::
      (if c.cancel_order pair.lighter_market_b result_b.order_id = false then
        [Effect.jobLog "error" (some (stage ++ "_rollback_failed"))]
      else [])
  else []

/-- Position size from balance (`balance * position_size_pct / 100`). -/
def entry_position_size (balance position_size_pct : ℚ) : ℚ :=
  balance * (position_size_pct / 100)

/-- `pair_job._handle_entry`, as the effect trace of one entry-path cycle.
`client = none` embeds a missing active credential; `db_has_position` is
the duplicate re-check read performed just before the commit. -/
def handle_entry (client : Option ClientModel) (pair : Pair) (signals : SignalResult)
    (current_price_a current_price_b : ℚ) (db_has_position : Bool) : List Effect :=
  match client with
  | none => [Effect.jobLog "error" none]
  | some c =>
    let position_size := entry_position_size c.balance pair.position_size_pct
    if position_size ≤ 0 then
      [Effect.getBalance, Effect.jobLog "error" none]
    else
      let equity_floor := position_size * pair.min_equity_pct / 100
      let entry := evaluate_entry signals pair.entry_z pair.max_half_life pair.rsi_upper
        pair.rsi_lower position_size equity_floor pair.leverage
      if entry.should_enter = false then
        let action := match entry.skip_reason with
          | some r => if r = "no_signal" then "none" else "skip:" ++ r
          | none => "skip:None"
        [Effect.getBalance, Effect.equityWrite position_size,
         Effect.jobLog "success" (some action)]
      else
        let dollar_per_unit := current_price_a + |signals.hedge| * current_price_b
        let units := if dollar_per_unit > 0 then entry.notional / dollar_per_unit else 0
        let size_a := |units|
        let size_b := |units * signals.hedge|
        let result_a := place_pair_order c pair pair.lighter_market_a size_a
          current_price_a (entry.direction == -1)
        let result_b := place_pair_order c pair pair.lighter_market_b size_b
          current_price_b (entry.direction == 1)
        let pre := [Effect.getBalance, Effect.equityWrite position_size,
          Effect.placeLeg pair.lighter_market_a (entry.direction == -1) result_a.success,
          Effect.placeLeg pair.lighter_market_b (entry.direction == 1) result_b.success]
        if result_a.success = false ∨ result_b.success = false then
          pre ++ rollback_effects c pair result_a result_b "entry" ++
            [Effect.jobLog "error" (some "entry_failed")]
        else
          let ex_markets := c.get_positions.map (fun p => p.market_index)
          if ¬ (pair.lighter_market_a ∈ ex_markets) ∨ ¬ (pair.lighter_market_b ∈ ex_markets) then
            pre ++ [Effect.getPositionsCall,
              Effect.jobLog "error" (some "entry_not_confirmed"), Effect.notifyOp]
          else if db_has_position then
            pre ++ [Effect.getPositionsCall,
              Effect.jobLog "skipped" (some "entry_aborted_duplicate")]
          else
            pre ++ [Effect.getPositionsCall,
              Effect.createPosition
                { pair_id := pair.id, direction := entry.direction,
                  entry_z := signals.z_score, entry_spread := signals.current_spread,
                  entry_price_a := current_price_a, entry_price_b := current_price_b,
                  entry_hedge := signals.hedge, entry_notional := entry.notional },
              Effect.notifyOp,
              Effect.jobLog "success"
                (some (if entry.direction == 1 then "entry_long" else "entry_short"))]

/-- `pair_job.run_pair_cycle`: the overlap guard.  When the per-pair mutex
is already held the invocation writes a single skipped JobLog and returns;
otherwise the full cycle body (`_run_pair_cycle_once`) runs, whatever
effects it produces. -/
def run_pair_cycle (lock_held : Bool) (cycle_effects : List Effect) : List Effect :=
  if lock_held then [Effect.jobLog "skipped" (some "cycle_skipped_overlap")]
  else cycle_effects

/-- Classifier: is this effect a JobLog row? -/
def Effect.is_job_log : Effect → Bool
  | .jobLog _ _ => true
  | _ => false

/-- Classifier: is this effect a call to the exchange? -/
def Effect.is_exchange_call : Effect → Bool
  | .getBalance => true
  | .placeLeg _ _ _ => true
  | .cancelLeg _ => true
  | .getPositionsCall => true
  | _ => false

/-- Classifier: is this effect a database state change? -/
def Effect.is_db_write : Effect → Bool
  | .equityWrite _ => true
  | .createPosition _ => true
  | _ => false

/-! ### Equity accounting across cycles (`_handle_entry` / `_handle_exit`) -/

/-- The per-pair equity bookkeeping state: tracked equity, the pnl values
of the recorded trades, and whether an `OpenPosition` row exists. -/
structure EquityState where
  current_equity : ℚ
  trade_pnls : List ℚ
  has_position : Bool
deriving DecidableEq, Repr

/-- One persisting cycle, as it touches the equity bookkeeping.
An entry-path cycle (`pair_job.py` lines 205-212) overwrites
`current_equity` with the balance-derived `position_size` before the
entry predicate runs, then opens a position when the whole path succeeds.
An exit-path cycle (lines 431-471) appends a `Trade` with `pnl`, adds
`pnl` to `current_equity` and deletes the position, atomically. -/
inductive CycleOp where
  | entry (position_size : ℚ) (opens : Bool) : CycleOp
  | exitTrade (pnl : ℚ) : CycleOp
deriving DecidableEq, Repr

/-- Step function of the equity bookkeeping. -/
def cycle_step (s : EquityState) (op : CycleOp) : EquityState :=
  match op with
  | .entry position_size opens =>
      if s.has_position then s
      else { current_equity := position_size, trade_pnls := s.trade_pnls,
             has_position := opens }
  | .exitTrade pnl =>
      if s.has_position then
        { current_equity := s.current_equity + pnl,
          trade_pnls := s.trade_pnls ++ [pnl], has_position := false }
      else s

/-- A run of persisting cycles from an initial state. -/
def cycle_run (s : EquityState) (ops : List CycleOp) : EquityState :=
  List.foldl cycle_step s ops

/-- Entries are balance-consistent along a run: every entry-path cycle
that executes (pair currently flat) reads a balance whose derived
`position_size` equals the tracked equity at that moment. -/
def entries_match : EquityState → List CycleOp → Bool
  | _, [] => true
  | s, op :: rest =>
    (match op with
     | CycleOp.entry position_size _ =>
         s.has_position || decide (position_size = s.current_equity)
     | CycleOp.exitTrade _ => true) && entries_match (cycle_step s op) rest

/-! ### Startup reconciler (`position_sync.py`) -/

/-- Lookup in the `market_index → exchange position` dict
(`exchange_by_market`); built by insertion, so a later entry overwrites
an earlier one with the same index. -/
def ex_lookup (e : List ExchangePos) (m : ℤ) : Option ExchangePos :=
  e.reverse.find? (fun p => p.market_index == m)

/-- `session.get(TradingPair, pair_id)`: primary-key lookup. -/
def find_pair (pairs : List Pair) (pid : ℕ) : Option Pair :=
  pairs.find? (fun p => p.id == pid)

/-- Whether a DB position row survives the first reconciler pass: deleted
when its pair was deleted (orphan) or when neither leg appears on the
exchange (stale); kept when confirmed (both legs) or partial (one leg). -/
def position_survives (pairs : List Pair) (e : List ExchangePos) (pos : PositionRow) : Bool :=
  match find_pair pairs pos.pair_id with
  | none => false
  | some pr => (ex_lookup e pr.lighter_market_a).isSome ||
      (ex_lookup e pr.lighter_market_b).isSome

/-- The auto-recovery pass: for each enabled pair with no DB position
(checked against the list read at the start of the sync) whose two legs
both appear on the exchange, create an `OpenPosition` with direction from
leg A's side, hedge ratio `size_b / size_a` (0-guarded), notional
`price_a*size_a + price_b*size_b`, and zero `entry_z` / `entry_spread`. -/
def auto_recover (pairs : List Pair) (db_positions : List PositionRow)
    (e : List ExchangePos) : List PositionRow :=
  pairs.filterMap (fun pr =>
    if pr.is_enabled = false then none
    else if db_positions.any (fun dp => dp.pair_id == pr.id) then none
    else
      match ex_lookup e pr.lighter_market_a, ex_lookup e pr.lighter_market_b with
      | some ex_a, some ex_b =>
          some { pair_id := pr.id,
                 direction := if ex_a.side_long then 1 else -1,
                 entry_z := 0, entry_spread := 0,
                 entry_price_a := ex_a.entry_price, entry_price_b := ex_b.entry_price,
                 entry_hedge := if ex_a.size > 0 then ex_b.size / ex_a.size else 0,
                 entry_notional := ex_a.entry_price * ex_a.size + ex_b.entry_price * ex_b.size }
      | _, _ => none)

/-- `position_sync.sync_positions_on_startup`, restricted to its effect on
the set of `OpenPosition` rows: drop orphan and stale rows, then append
the auto-recovered ones. -/
def sync_positions (pairs : List Pair) (db_positions : List PositionRow)
    (e : List ExchangePos) : List PositionRow :=
  db_positions.filter (position_survives pairs e) ++ auto_recover pairs db_positions e

/-! ### The cycle's market-data call (`_run_pair_cycle_once`, line 91) -/

/-- Parameter names of `market_data.fetch_pair_data` (all six are
required: none has a default). -/
def fetch_pair_data_params : List String :=
  ["asset_a", "asset_b", "window_interval", "window_candles",
   "train_interval", "train_candles"]

/-- Keyword-argument names used at the `fetch_pair_data(...)` call site in
`pair_job._run_pair_cycle_once`. -/
def pair_cycle_fetch_kwargs : List String :=
  ["market_a", "market_b", "window_interval", "window_candles",
   "train_interval", "train_candles"]

/-- Python keyword binding for a call made with keyword arguments only:
every keyword must name a declared parameter and every required parameter
must be bound, else the call raises `TypeError`. -/
def kwargs_bind (params kwargs : List String) : Bool :=
  kwargs.all (fun k => params.contains k) && params.all (fun p => kwargs.contains p)

/-! ### Helper lemmas -/

/-- Characterization of the half-life filter test. -/
lemma hl_in_range_eq_true_iff (hl : Option ℚ) (m : ℚ) :
    hl_in_range hl m = true ↔ ∃ h, hl = some h ∧ 0 < h ∧ h ≤ m := by
  cases hl <;> simp [hl_in_range, and_assoc]

/-- Characterization of the RSI band violation. -/
lemma rsi_blocks_eq_false_iff (r : Option ℚ) (lo up : ℚ) :
    rsi_blocks r lo up = false ↔ ∀ x, r = some x → lo ≤ x ∧ x ≤ up := by
  cases r <;> simp [rsi_blocks]

/-- Orders placed through the mock client always report success. -/
lemma mock_place_success (pair : Pair) (m : ℤ) (a p : ℚ) (ask : Bool) :
    (place_pair_order mock_client pair m a p ask).success = true := by
  rw [place_pair_order]
  split <;> rfl

/-! ### Claim theorems -/

/-- Claim C1 (code bug evidence): the call in
`pair_job._run_pair_cycle_once` passes keywords `market_a`, `market_b`,
but `market_data.fetch_pair_data` declares parameters `asset_a`,
`asset_b`; Python keyword binding fails, so every cycle raises
`TypeError` before any market data is fetched and the entry path of the
C1 scenario is never reached. -/
theorem c1_fetch_pair_data_kwargs_mismatch :
    kwargs_bind fetch_pair_data_params pair_cycle_fetch_kwargs = false ∧
    pair_cycle_fetch_kwargs.contains "market_a" = true ∧
    fetch_pair_data_params.contains "market_a" = false ∧
    fetch_pair_data_params.contains "asset_a" = true ∧
    pair_cycle_fetch_kwargs.contains "asset_a" = false := by
  decide

/-- Claim C2 counterexample: direction `+1`, `z = 5 > stop_z = 4`,
`exit_z = 1/2 ≥ 0`, stop-loss disabled (`stop_loss_pct = 0`): the code
labels the exit `signal`, not `stop_z` as the claim states, because the
`z > -exit_z` label test comes first and `z > stop_z > 0 ≥ -exit_z`
implies it. -/
theorem c2_stop_z_label_counterexample :
    (0 : ℚ) < 4 ∧ (0 : ℚ) ≤ 1/2 ∧ (5 : ℚ) > 4 ∧
    (evaluate_exit ⟨5, 1, none, none, 0, 0, none⟩ 1 0 1 0 0 0 1 (1/2) 4 0 0 0).should_exit
      = true ∧
    (evaluate_exit ⟨5, 1, none, none, 0, 0, none⟩ 1 0 1 0 0 0 1 (1/2) 4 0 0 0).exit_reason
      = some "signal" ∧
    (evaluate_exit ⟨5, 1, none, none, 0, 0, none⟩ 1 0 1 0 0 0 1 (1/2) 4 0 0 0).exit_reason
      ≠ some "stop_z" := by
  refine ⟨by norm_num, by norm_num, by norm_num, ?_, ?_, ?_⟩ <;>
    (norm_num [evaluate_exit, exit_unreal_pnl, exit_unreal_pct]; try decide)

/-- Claim C2 (amended): when the stop-loss rule does not fire and the
stated conventions `stop_z > 0`, `exit_z ≥ 0` hold, a position with
direction `+1` and `z > stop_z` (resp. `-1` and `z < -stop_z`) exits
with reason `signal`; the `stop_z` label is only reachable in the
impossible residual case `z > stop_z ∧ z ≤ -exit_z` (resp. symmetric). -/
theorem c2_z_exit_labeled_signal (signals : SignalResult) (position_direction : ℤ)
    (entry_spread entry_price_a entry_price_b entry_hedge entry_notional
     current_equity exit_z stop_z stop_loss_pct current_price_a current_price_b : ℚ)
    (hsz : 0 < stop_z) (hez : 0 ≤ exit_z)
    (hnostop : ¬ (stop_loss_pct > 0 ∧
      exit_unreal_pct (exit_unreal_pnl position_direction entry_spread entry_price_a
        entry_price_b entry_hedge entry_notional current_price_a current_price_b)
        current_equity ≤ -stop_loss_pct)) :
    (position_direction = 1 → signals.z_score > stop_z →
      (evaluate_exit signals position_direction entry_spread entry_price_a entry_price_b
        entry_hedge entry_notional current_equity exit_z stop_z stop_loss_pct
        current_price_a current_price_b).should_exit = true ∧
      (evaluate_exit signals position_direction entry_spread entry_price_a entry_price_b
        entry_hedge entry_notional current_equity exit_z stop_z stop_loss_pct
        current_price_a current_price_b).exit_reason = some "signal") ∧
    (position_direction = -1 → signals.z_score < -stop_z →
      (evaluate_exit signals position_direction entry_spread entry_price_a entry_price_b
        entry_hedge entry_notional current_equity exit_z stop_z stop_loss_pct
        current_price_a current_price_b).should_exit = true ∧
      (evaluate_exit signals position_direction entry_spread entry_price_a entry_price_b
        entry_hedge entry_notional current_equity exit_z stop_z stop_loss_pct
        current_price_a current_price_b).exit_reason = some "signal") := by
  constructor
  · intro hdir hz
    have hz2 : signals.z_score > -exit_z := by linarith
    simp only [evaluate_exit]
    rw [if_neg hnostop, if_pos ⟨hdir, Or.inr hz⟩, if_pos hz2]
    exact ⟨rfl, rfl⟩
  · intro hdir hz
    have hz2 : signals.z_score < exit_z := by linarith
    have hne : ¬ (position_direction = 1 ∧
        (signals.z_score > -exit_z ∨ signals.z_score > stop_z)) := by
      rintro ⟨h, -⟩
      rw [hdir] at h
      exact absurd h (by decide)
    simp only [evaluate_exit]
    rw [if_neg hnostop, if_neg hne, if_pos ⟨hdir, Or.inr hz⟩, if_pos hz2]
    exact ⟨rfl, rfl⟩

/-- Claim C2 witness: the amended statement at the counterexample input. -/
theorem c2_z_exit_labeled_signal_witness :
    (0 : ℚ) < 4 ∧ (0 : ℚ) ≤ 1/2 ∧
    (evaluate_exit ⟨5, 1, none, none, 0, 0, none⟩ 1 0 1 0 0 0 1 (1/2) 4 0 0 0).should_exit
      = true ∧
    (evaluate_exit ⟨5, 1, none, none, 0, 0, none⟩ 1 0 1 0 0 0 1 (1/2) 4 0 0 0).exit_reason
      = some "signal" :=
  ⟨by norm_num, by norm_num,
   ((c2_z_exit_labeled_signal ⟨5, 1, none, none, 0, 0, none⟩ 1 0 1 0 0 0 1 (1/2) 4 0 0 0
      (by norm_num) (by norm_num)
      (by norm_num [exit_unreal_pnl, exit_unreal_pct])).1 rfl (by norm_num)).1,
   ((c2_z_exit_labeled_signal ⟨5, 1, none, none, 0, 0, none⟩ 1 0 1 0 0 0 1 (1/2) 4 0 0 0
      (by norm_num) (by norm_num)
      (by norm_num [exit_unreal_pnl, exit_unreal_pct])).1 rfl (by norm_num)).2⟩

/-- Claim C3 counterexample: pair starts at equity 1000; an entry-path
cycle reads a balance-derived `position_size = 500` (overwriting
`current_equity`), the position later exits with `pnl = 10`; the recorded
pnl sum plus the initial equity is `1010`, but `current_equity = 510`. -/
theorem c3_equity_invariant_counterexample :
    (cycle_run ⟨1000, [], false⟩ [CycleOp.entry 500 true, CycleOp.exitTrade 10]).trade_pnls
      = [10] ∧
    (cycle_run ⟨1000, [], false⟩ [CycleOp.entry 500 true, CycleOp.exitTrade 10]).current_equity
      = 510 ∧
    (cycle_run ⟨1000, [], false⟩
        [CycleOp.entry 500 true, CycleOp.exitTrade 10]).trade_pnls.sum + 1000 ≠
      (cycle_run ⟨1000, [], false⟩
        [CycleOp.entry 500 true, CycleOp.exitTrade 10]).current_equity := by
  refine ⟨?_, ?_, ?_⟩ <;> norm_num [cycle_run, cycle_step]

/-- Claim C3 (amended): the equity-accounting invariant
`Σ(trade.pnl) + equity₀ = current_equity` is preserved by any sequence of
entry and exit cycles in which every executed entry's balance-derived
`position_size` equals the pair's tracked equity at that moment (the
entry path overwrites `current_equity ← position_size`, so an
inconsistent balance read breaks the invariant, as the counterexample
shows). -/
theorem c3_equity_invariant_amended (ops : List CycleOp) (s : EquityState) (equity0 : ℚ)
    (hinv : s.trade_pnls.sum + equity0 = s.current_equity)
    (hm : entries_match s ops = true) :
    (cycle_run s ops).trade_pnls.sum + equity0 = (cycle_run s ops).current_equity := by
  induction ops generalizing s with
  | nil => simpa [cycle_run] using hinv
  | cons op rest ih =>
    simp only [entries_match, Bool.and_eq_true] at hm
    obtain ⟨h1, h2⟩ := hm
    have hstep : (cycle_step s op).trade_pnls.sum + equity0 =
        (cycle_step s op).current_equity := by
      cases op with
      | entry position_size opens =>
        by_cases hp : s.has_position = true
        · simp [cycle_step, hp, hinv]
        · simp only [Bool.or_eq_true, decide_eq_true_eq] at h1
          rcases h1 with h1 | h1
          · exact absurd h1 hp
          · simp only [cycle_step]
            rw [if_neg hp, h1]
            exact hinv
      | exitTrade pnl =>
        by_cases hp : s.has_position = true
        · simp only [cycle_step]
          rw [if_pos hp]
          simp only [List.sum_append, List.sum_cons, List.sum_nil]
          linarith [hinv]
        · simp only [cycle_step]
          rw [if_neg hp]
          exact hinv
    have hrec := ih (cycle_step s op) hstep h2
    simpa [cycle_run, List.foldl_cons] using hrec

/-- Claim C3 witness: a balance-consistent run satisfying the amended
invariant. -/
theorem c3_equity_invariant_amended_witness :
    entries_match ⟨1000, [], false⟩
      [CycleOp.entry 1000 true, CycleOp.exitTrade 10,
       CycleOp.entry 1010 true, CycleOp.exitTrade (-5)] = true ∧
    (cycle_run ⟨1000, [], false⟩
      [CycleOp.entry 1000 true, CycleOp.exitTrade 10,
       CycleOp.entry 1010 true, CycleOp.exitTrade (-5)]).trade_pnls.sum + 1000 =
    (cycle_run ⟨1000, [], false⟩
      [CycleOp.entry 1000 true, CycleOp.exitTrade 10,
       CycleOp.entry 1010 true, CycleOp.exitTrade (-5)]).current_equity :=
  ⟨by norm_num [entries_match, cycle_step],
   c3_equity_invariant_amended _ ⟨1000, [], false⟩ 1000 (by norm_num)
     (by norm_num [entries_match, cycle_step])⟩

/-- Claim C4: stop-loss precedence.  Whenever `stop_loss_pct > 0` and the
computed unrealized percentage is at or below `-stop_loss_pct`, the exit
fires with reason `stop_loss`, regardless of the z-based rules. -/
theorem c4_stop_loss_precedence (signals : SignalResult) (position_direction : ℤ)
    (entry_spread entry_price_a entry_price_b entry_hedge entry_notional
     current_equity exit_z stop_z stop_loss_pct current_price_a current_price_b : ℚ)
    (h1 : stop_loss_pct > 0)
    (h2 : exit_unreal_pct (exit_unreal_pnl position_direction entry_spread entry_price_a
        entry_price_b entry_hedge entry_notional current_price_a current_price_b)
        current_equity ≤ -stop_loss_pct) :
    (evaluate_exit signals position_direction entry_spread entry_price_a entry_price_b
      entry_hedge entry_notional current_equity exit_z stop_z stop_loss_pct
      current_price_a current_price_b).should_exit = true ∧
    (evaluate_exit signals position_direction entry_spread entry_price_a entry_price_b
      entry_hedge entry_notional current_equity exit_z stop_z stop_loss_pct
      current_price_a current_price_b).exit_reason = some "stop_loss" := by
  simp only [evaluate_exit]
  rw [if_pos ⟨h1, h2⟩]
  exact ⟨rfl, rfl⟩

/-- Claim C4 witness: the spec's literal scenario — `+1` position,
`unreal_pct = -12`, `z = 0.1`, `stop_loss_pct = 10`, `exit_z = 0.5`,
`stop_z = 4` — exits with `stop_loss`, not `signal`. -/
theorem c4_stop_loss_precedence_witness :
    (10 : ℚ) > 0 ∧
    exit_unreal_pct (exit_unreal_pnl 1 50 100 50 1 150 88 50) 100 = -12 ∧
    (evaluate_exit ⟨1/10, 1, none, none, 0, 0, none⟩ 1 50 100 50 1 150 100 (1/2) 4 10 88 50).should_exit = true ∧
    (evaluate_exit ⟨1/10, 1, none, none, 0, 0, none⟩ 1 50 100 50 1 150 100 (1/2) 4 10 88 50).exit_reason = some "stop_loss" ∧
    (evaluate_exit ⟨1/10, 1, none, none, 0, 0, none⟩ 1 50 100 50 1 150 100 (1/2) 4 10 88 50).exit_reason ≠ some "signal" :=
  ⟨by norm_num, by norm_num [exit_unreal_pnl, exit_unreal_pct],
   (c4_stop_loss_precedence ⟨1/10, 1, none, none, 0, 0, none⟩ 1 50 100 50 1 150 100 (1/2) 4 10 88 50
      (by norm_num) (by norm_num [exit_unreal_pnl, exit_unreal_pct])).1,
   (c4_stop_loss_precedence ⟨1/10, 1, none, none, 0, 0, none⟩ 1 50 100 50 1 150 100 (1/2) 4 10 88 50
      (by norm_num) (by norm_num [exit_unreal_pnl, exit_unreal_pct])).2,
   by norm_num [evaluate_exit, exit_unreal_pnl, exit_unreal_pct]; decide⟩

/-- Claim C5: entry predicate completeness and direction.  `should_enter`
holds iff all four clauses pass (signal strength, half-life filter when
active, RSI band when active and finite, equity floor); when it fires the
direction is `-1` for `z > entry_z` and `+1` for `z < -entry_z` (that is,
`-sign z`), and the notional is `current_equity * leverage`. -/
theorem c5_entry_characterization (signals : SignalResult)
    (entry_z max_half_life rsi_upper rsi_lower current_equity equity_floor leverage : ℚ)
    (hez : 0 < entry_z) :
    ∀ r, r = evaluate_entry signals entry_z max_half_life rsi_upper rsi_lower
        current_equity equity_floor leverage →
      (r.should_enter = true ↔
        (|signals.z_score| > entry_z ∧
         (max_half_life > 0 →
           ∃ h, signals.half_life = some h ∧ 0 < h ∧ h ≤ max_half_life) ∧
         ((rsi_lower > 0 ∨ rsi_upper < 100) →
           ∀ x, signals.rsi = some x → rsi_lower ≤ x ∧ x ≤ rsi_upper) ∧
         equity_floor ≤ current_equity)) ∧
      (r.should_enter = true →
        (signals.z_score > entry_z → r.direction = -1) ∧
        (signals.z_score < -entry_z → r.direction = 1) ∧
        (signals.z_score > entry_z ∨ signals.z_score < -entry_z) ∧
        r.notional = current_equity * leverage) := by
  intro r hr
  subst hr
  simp only [evaluate_entry]
  by_cases h1 : |signals.z_score| > entry_z
  case neg =>
    rw [if_pos h1]
    exact ⟨⟨fun hfe => absurd hfe (by simp), fun hcl => absurd hcl.1 h1⟩,
           fun hfe => absurd hfe (by simp)⟩
  case pos =>
  rw [if_neg (not_not_intro h1)]
  by_cases h2 : max_half_life > 0 ∧ hl_in_range signals.half_life max_half_life = false
  case pos =>
    rw [if_pos h2]
    refine ⟨⟨fun hfe => absurd hfe (by simp), fun hcl => ?_⟩,
            fun hfe => absurd hfe (by simp)⟩
    have htrue := (hl_in_range_eq_true_iff signals.half_life max_half_life).2 (hcl.2.1 h2.1)
    rw [h2.2] at htrue
    exact absurd htrue (by simp)
  case neg =>
  rw [if_neg h2]
  by_cases h3 : (rsi_lower > 0 ∨ rsi_upper < 100) ∧
      rsi_blocks signals.rsi rsi_lower rsi_upper = true
  case pos =>
    rw [if_pos h3]
    refine ⟨⟨fun hfe => absurd hfe (by simp), fun hcl => ?_⟩,
            fun hfe => absurd hfe (by simp)⟩
    have hfalse := (rsi_blocks_eq_false_iff signals.rsi rsi_lower rsi_upper).2 (hcl.2.2.1 h3.1)
    rw [h3.2] at hfalse
    exact absurd hfalse (by simp)
  case neg =>
  rw [if_neg h3]
  by_cases h4 : current_equity < equity_floor
  case pos =>
    rw [if_pos h4]
    exact ⟨⟨fun hfe => absurd hfe (by simp), fun hcl => absurd hcl.2.2.2 (not_le.2 h4)⟩,
           fun hfe => absurd hfe (by simp)⟩
  case neg =>
  rw [if_neg h4]
  have hclauses : |signals.z_score| > entry_z ∧
      (max_half_life > 0 → ∃ h, signals.half_life = some h ∧ 0 < h ∧ h ≤ max_half_life) ∧
      ((rsi_lower > 0 ∨ rsi_upper < 100) →
        ∀ x, signals.rsi = some x → rsi_lower ≤ x ∧ x ≤ rsi_upper) ∧
      equity_floor ≤ current_equity := by
    refine ⟨h1, ?_, ?_, not_lt.1 h4⟩
    · intro hhl
      rcases not_and_or.1 h2 with h | h
      · exact absurd hhl h
      · exact (hl_in_range_eq_true_iff signals.half_life max_half_life).1
          (by simpa using h)
    · intro huse
      rcases not_and_or.1 h3 with h | h
      · exact absurd huse h
      · exact (rsi_blocks_eq_false_iff signals.rsi rsi_lower rsi_upper).1
          (by simpa using h)
  by_cases h5 : signals.z_score > entry_z
  case pos =>
    rw [if_pos h5]
    exact ⟨⟨fun _ => hclauses, fun _ => rfl⟩,
           fun _ => ⟨fun _ => rfl, fun hzn => absurd hzn (by linarith), Or.inl h5, rfl⟩⟩
  case neg =>
    rw [if_neg h5]
    have hzneg : signals.z_score < -entry_z := by
      rcases lt_abs.1 h1 with h | h
      · exact absurd h h5
      · linarith
    exact ⟨⟨fun _ => hclauses, fun _ => rfl⟩,
           fun _ => ⟨fun hzp => absurd hzp h5, fun _ => rfl, Or.inr hzneg, rfl⟩⟩

/-- Claim C5 witness: the spec's entry-long signal levels — `z = -3`,
`entry_z = 2`, filters inactive, equity 500 above floor 200, leverage 5 —
fire with direction `+1` and notional 2500. -/
theorem c5_entry_characterization_witness :
    (0 : ℚ) < 2 ∧
    (evaluate_entry ⟨-3, 1, none, none, 0, 0, none⟩ 2 0 100 0 500 200 5).should_enter
      = true ∧
    (evaluate_entry ⟨-3, 1, none, none, 0, 0, none⟩ 2 0 100 0 500 200 5).direction = 1 ∧
    (evaluate_entry ⟨-3, 1, none, none, 0, 0, none⟩ 2 0 100 0 500 200 5).notional = 2500 :=
  ⟨by norm_num, by norm_num [evaluate_entry, hl_in_range, rsi_blocks],
   ((c5_entry_characterization ⟨-3, 1, none, none, 0, 0, none⟩ 2 0 100 0 500 200 5
       (by norm_num) _ rfl).2
     (by norm_num [evaluate_entry, hl_in_range, rsi_blocks])).2.1 (by norm_num),
   by norm_num [evaluate_entry, hl_in_range, rsi_blocks]⟩

/-- Claim C8 counterexample: on the empty price arrays the spread series
is empty, so `np.std` is NaN (the claim's hypothesis holds) but
`compute_zscore_value` does not return `z = 0` — `float(spread[-1])`
raises `IndexError` before the guard, embedded as a `none` result. -/
theorem c8_zero_variance_counterexample :
    np_sample_var (py_last_window 20 (List.zipWith (fun x y => x - (1 : ℚ) * y) [] [])) = none ∧
    compute_zscore_value [] [] 1 20 = none := by
  constructor
  · rfl
  · rfl

/-- Claim C8 (amended): for every input whose spread series is nonempty,
if the sample standard deviation of the last-`window` spread values is 0
or NaN then `compute_zscore_value` returns `z = 0` without dividing;
consequently an entry evaluation over a zero z-score with `entry_z > 0`
skips with reason `no_signal`. -/
theorem c8_zero_variance_guard (prices_a prices_b : List ℚ) (hr : ℚ) (window : ℕ)
    (hne : List.zipWith (fun x y => x - hr * y) prices_a prices_b ≠ [])
    (hvar : np_sample_var (py_last_window window
        (List.zipWith (fun x y => x - hr * y) prices_a prices_b)) = none ∨
      np_sample_var (py_last_window window
        (List.zipWith (fun x y => x - hr * y) prices_a prices_b)) = some 0) :
    (∃ current mean sd, compute_zscore_value prices_a prices_b hr window =
      some (ZVal.zero, current, mean, sd)) ∧
    (∀ (signals : SignalResult)
        (entry_z max_half_life rsi_upper rsi_lower current_equity equity_floor leverage : ℚ),
      signals.z_score = 0 → 0 < entry_z →
      evaluate_entry signals entry_z max_half_life rsi_upper rsi_lower current_equity
          equity_floor leverage =
        { should_enter := false, direction := 0, skip_reason := some "no_signal",
          notional := 0 }) := by
  constructor
  · obtain ⟨current, hc⟩ := Option.isSome_iff_exists.1 (List.getLast?_isSome.2 hne)
    rcases hvar with hv | hv
    · exact ⟨current, np_mean (py_last_window window
        (List.zipWith (fun x y => x - hr * y) prices_a prices_b)), none,
        by simp only [compute_zscore_value, hc, hv]⟩
    · exact ⟨current, np_mean (py_last_window window
        (List.zipWith (fun x y => x - hr * y) prices_a prices_b)), some 0,
        by simp [compute_zscore_value, hc, hv]⟩
  · intro signals entry_z max_half_life rsi_upper rsi_lower current_equity
      equity_floor leverage hz hez
    have hno : ¬ (|signals.z_score| > entry_z) := by
      rw [hz, abs_zero]
      exact not_lt.2 (le_of_lt hez)
    simp only [evaluate_entry]
    rw [if_pos hno]

/-- Claim C8 witness: a constant spread window (`σ = 0`) yields `z = 0`
and no entry. -/
theorem c8_zero_variance_guard_witness :
    List.zipWith (fun x y => x - (1 : ℚ) * y) [1, 1, 1] [0, 0, 0] ≠ [] ∧
    np_sample_var (py_last_window 3
      (List.zipWith (fun x y => x - (1 : ℚ) * y) [1, 1, 1] [0, 0, 0])) = some 0 ∧
    (∃ current mean sd, compute_zscore_value [1, 1, 1] [0, 0, 0] 1 3 =
      some (ZVal.zero, current, mean, sd)) ∧
    evaluate_entry ⟨0, 1, none, none, 1, 1, some 0⟩ 2 0 100 0 500 200 5 =
      { should_enter := false, direction := 0, skip_reason := some "no_signal",
        notional := 0 } :=
  ⟨by decide, by norm_num [np_sample_var, py_last_window, np_mean],
   (c8_zero_variance_guard [1, 1, 1] [0, 0, 0] 1 3
      (by decide)
      (Or.inr (by norm_num [np_sample_var, py_last_window, np_mean]))).1,
   (c8_zero_variance_guard [1, 1, 1] [0, 0, 0] 1 3
      (by decide)
      (Or.inr (by norm_num [np_sample_var, py_last_window, np_mean]))).2
     ⟨0, 1, none, none, 1, 1, some 0⟩ 2 0 100 0 500 200 5 rfl (by norm_num)⟩

/-- Claim C9: the overlap guard.  When the per-pair mutex is already held,
`run_pair_cycle` produces exactly one JobLog effect, with status `skipped`
and action `cycle_skipped_overlap`, and performs no market-data fetch, no
exchange call and no database write — whatever the cycle body would have
done. -/
theorem c9_overlap_skip (cycle_effects : List Effect) :
    run_pair_cycle true cycle_effects =
      [Effect.jobLog "skipped" (some "cycle_skipped_overlap")] ∧
    ((run_pair_cycle true cycle_effects).filter Effect.is_job_log).length = 1 ∧
    ∀ eff ∈ run_pair_cycle true cycle_effects,
      Effect.is_exchange_call eff = false ∧ Effect.is_db_write eff = false ∧
      eff ≠ Effect.fetchMarketData := by
  refine ⟨rfl, rfl, ?_⟩
  intro eff heff
  simp only [run_pair_cycle, if_true, List.mem_singleton] at heff
  subst heff
  exact ⟨rfl, rfl, by simp⟩

/-- Claim C6: reconciler auto-recovery.  For every enabled pair with no
DB position whose two legs both appear in the exchange map (with leg A of
positive size, which `get_positions` guarantees for every entry it
returns), the reconciler creates an `OpenPosition` whose direction is
`+1` iff leg A is long, whose hedge ratio is `size_b / size_a`, whose
notional is `price_a*size_a + price_b*size_b`, and whose `entry_z` and
`entry_spread` are 0. -/
theorem c6_auto_recover (pairs : List Pair) (db_positions : List PositionRow)
    (e : List ExchangePos) (pr : Pair) (ex_a ex_b : ExchangePos)
    (hmem : pr ∈ pairs) (hen : pr.is_enabled = true)
    (hnopos : db_positions.any (fun dp => dp.pair_id == pr.id) = false)
    (ha : ex_lookup e pr.lighter_market_a = some ex_a)
    (hb : ex_lookup e pr.lighter_market_b = some ex_b)
    (hsz : 0 < ex_a.size) :
    ∃ row ∈ sync_positions pairs db_positions e,
      row.pair_id = pr.id ∧
      (row.direction = 1 ↔ ex_a.side_long = true) ∧
      (row.direction = -1 ↔ ex_a.side_long = false) ∧
      row.entry_hedge = ex_b.size / ex_a.size ∧
      row.entry_notional = ex_a.entry_price * ex_a.size + ex_b.entry_price * ex_b.size ∧
      row.entry_z = 0 ∧ row.entry_spread = 0 := by
  refine ⟨{ pair_id := pr.id,
            direction := if ex_a.side_long then 1 else -1,
            entry_z := 0, entry_spread := 0,
            entry_price_a := ex_a.entry_price, entry_price_b := ex_b.entry_price,
            entry_hedge := if ex_a.size > 0 then ex_b.size / ex_a.size else 0,
            entry_notional := ex_a.entry_price * ex_a.size + ex_b.entry_price * ex_b.size },
         ?_, rfl, ?_, ?_, ?_, rfl, rfl, rfl⟩
  · rw [sync_positions, auto_recover]
    refine List.mem_append_right _ (List.mem_filterMap.2 ⟨pr, hmem, ?_⟩)
    simp only [hen, hnopos, ha, hb]
    rw [if_neg (by decide), if_neg (by simp)]
  · cases hside : ex_a.side_long <;> simp [hside]
  · cases hside : ex_a.side_long <;> simp [hside]
  · show (if ex_a.size > 0 then ex_b.size / ex_a.size else 0) = ex_b.size / ex_a.size
    rw [if_pos hsz]

/-- Claim C6 witness: the spec's literal scenario — enabled pair 3 with
markets 1 and 2, no DB position, exchange holding
`[(1, long, 0.5, 100), (2, short, 1.0, 50)]` — recovers a position with
direction `+1`, hedge ratio 2, notional 100 and zero entry snapshot. -/
theorem c6_auto_recover_witness :
    ∃ row ∈ sync_positions
        [{ id := 3, lighter_market_a := 1, lighter_market_b := 2 }] []
        [⟨1, true, 1/2, 100⟩, ⟨2, false, 1, 50⟩],
      row.pair_id = 3 ∧
      (row.direction = 1 ↔ (true : Bool) = true) ∧
      (row.direction = -1 ↔ (true : Bool) = false) ∧
      row.entry_hedge = 1 / (1/2 : ℚ) ∧
      row.entry_notional = (100 : ℚ) * (1/2) + 50 * 1 ∧
      row.entry_z = 0 ∧ row.entry_spread = 0 :=
  c6_auto_recover
    [{ id := 3, lighter_market_a := 1, lighter_market_b := 2 }] []
    [⟨1, true, 1/2, 100⟩, ⟨2, false, 1, 50⟩]
    { id := 3, lighter_market_a := 1, lighter_market_b := 2 }
    ⟨1, true, 1/2, 100⟩ ⟨2, false, 1, 50⟩
    (List.mem_singleton.2 rfl) rfl rfl (by norm_num [ex_lookup])
    (by norm_num [ex_lookup]) (by norm_num)

/-- Primary-key lookup finds the pair itself when pair ids are unique. -/
lemma find_pair_eq_self (pairs : List Pair) (pr : Pair)
    (hmem : pr ∈ pairs) (hnodup : (pairs.map Pair.id).Nodup) :
    find_pair pairs pr.id = some pr := by
  induction pairs with
  | nil => cases hmem
  | cons hd tl ih =>
    rw [find_pair]
    rw [List.map_cons, List.nodup_cons] at hnodup
    by_cases h : hd.id = pr.id
    · rw [List.find?_cons_of_pos _ (by simp [h])]
      rcases List.mem_cons.1 hmem with heq | hmem'
      · rw [heq]
      · exact absurd (h ▸ List.mem_map_of_mem Pair.id hmem') hnodup.1
    · rw [List.find?_cons_of_neg _ (by simp [h])]
      have hmem' : pr ∈ tl := by
        rcases List.mem_cons.1 hmem with heq | hmem'
        · exact absurd (by rw [heq]) h
        · exact hmem'
      exact ih hmem' hnodup.2

/-- Every row created by the auto-recovery pass survives the first
reconciler pass: its pair exists and its leg A is on the exchange. -/
lemma auto_recover_survives (pairs : List Pair) (db_positions : List PositionRow)
    (e : List ExchangePos) (hnodup : (pairs.map Pair.id).Nodup) :
    ∀ row ∈ auto_recover pairs db_positions e,
      position_survives pairs e row = true := by
  intro row hrow
  rw [auto_recover] at hrow
  obtain ⟨pr, hpr, hf⟩ := List.mem_filterMap.1 hrow
  by_cases h1 : pr.is_enabled = false
  · rw [if_pos h1] at hf
    exact Option.noConfusion hf
  rw [if_neg h1] at hf
  by_cases h2 : db_positions.any (fun dp => dp.pair_id == pr.id) = true
  · rw [if_pos h2] at hf
    exact Option.noConfusion hf
  rw [if_neg h2] at hf
  cases hla : ex_lookup e pr.lighter_market_a with
  | none =>
    rw [hla] at hf
    exact Option.noConfusion hf
  | some ex_a =>
    cases hlb : ex_lookup e pr.lighter_market_b with
    | none =>
      rw [hla, hlb] at hf
      exact Option.noConfusion hf
    | some ex_b =>
      rw [hla, hlb] at hf
      cases hf
      simp only [position_survives]
      rw [find_pair_eq_self pairs pr hpr hnodup]
      simp [hla]

/-- Claim C7: reconciler idempotence.  For any database state and fixed
exchange snapshot (with unique pair ids, the table's primary-key
invariant), running the reconciliation twice leaves the `OpenPosition`
rows exactly as one run does. -/
theorem c7_sync_idempotent (pairs : List Pair) (db_positions : List PositionRow)
    (e : List ExchangePos) (hnodup : (pairs.map Pair.id).Nodup) :
    sync_positions pairs (sync_positions pairs db_positions e) e =
      sync_positions pairs db_positions e := by
  have hfilter : (sync_positions pairs db_positions e).filter (position_survives pairs e)
      = sync_positions pairs db_positions e := by
    apply List.filter_eq_self.2
    intro row hrow
    rcases List.mem_append.1 (by rw [sync_positions] at hrow; exact hrow) with h | h
    · exact (List.mem_filter.1 h).2
    · exact auto_recover_survives pairs db_positions e hnodup row h
  have hauto : auto_recover pairs (sync_positions pairs db_positions e) e = [] := by
    rw [auto_recover]
    refine List.filterMap_eq_nil_iff.2 (fun pr hpr => ?_)
    by_cases h1 : pr.is_enabled = false
    · rw [if_pos h1]
    rw [if_neg h1]
    by_cases h2 : (sync_positions pairs db_positions e).any
        (fun dp => dp.pair_id == pr.id) = true
    · rw [if_pos h2]
    rw [if_neg h2]
    cases hla : ex_lookup e pr.lighter_market_a with
    | none => rfl
    | some ex_a =>
      cases hlb : ex_lookup e pr.lighter_market_b with
      | none => rfl
      | some ex_b =>
        exfalso
        apply h2
        by_cases h3 : db_positions.any (fun dp => dp.pair_id == pr.id) = true
        · obtain ⟨dp, hdp, hdpid⟩ := List.any_eq_true.1 h3
          have hdpid' : dp.pair_id = pr.id := by simpa using hdpid
          have hsurv : position_survives pairs e dp = true := by
            simp only [position_survives]
            rw [hdpid', find_pair_eq_self pairs pr hpr hnodup]
            simp [hla]
          refine List.any_eq_true.2 ⟨dp, ?_, by simpa using hdpid'⟩
          rw [sync_positions]
          exact List.mem_append_left _ (List.mem_filter.2 ⟨hdp, hsurv⟩)
        · have h3' : db_positions.any (fun dp => dp.pair_id == pr.id) = false := by
            simpa using h3
          refine List.any_eq_true.2
            ⟨{ pair_id := pr.id,
               direction := if ex_a.side_long then 1 else -1,
               entry_z := 0, entry_spread := 0,
               entry_price_a := ex_a.entry_price, entry_price_b := ex_b.entry_price,
               entry_hedge := if ex_a.size > 0 then ex_b.size / ex_a.size else 0,
               entry_notional := ex_a.entry_price * ex_a.size +
                 ex_b.entry_price * ex_b.size }, ?_, by simp⟩
          rw [sync_positions]
          refine List.mem_append_right _ ?_
          rw [auto_recover]
          refine List.mem_filterMap.2 ⟨pr, hpr, ?_⟩
          rw [if_neg h1, if_neg (by rw [h3']; exact Bool.false_ne_true), hla, hlb]
  rw [sync_positions, hfilter, hauto, List.append_nil]

/-- Claim C7 witness: one run on the C6 scenario state is a fixed point
of the reconciler. -/
theorem c7_sync_idempotent_witness :
    (([{ id := 3, lighter_market_a := 1, lighter_market_b := 2 }] : List Pair).map
        Pair.id).Nodup ∧
    sync_positions [{ id := 3, lighter_market_a := 1, lighter_market_b := 2 }]
        (sync_positions [{ id := 3, lighter_market_a := 1, lighter_market_b := 2 }] []
          [⟨1, true, 1/2, 100⟩, ⟨2, false, 1, 50⟩])
        [⟨1, true, 1/2, 100⟩, ⟨2, false, 1, 50⟩] =
      sync_positions [{ id := 3, lighter_market_a := 1, lighter_market_b := 2 }] []
        [⟨1, true, 1/2, 100⟩, ⟨2, false, 1, 50⟩] :=
  ⟨by simp,
   c7_sync_idempotent [{ id := 3, lighter_market_a := 1, lighter_market_b := 2 }] []
     [⟨1, true, 1/2, 100⟩, ⟨2, false, 1, 50⟩] (by simp)⟩

/-- Claim C10: in mock mode (SDK unavailable) both legs report synthetic
success but `get_positions` is always empty, so every entry attempt that
reaches order placement fails the settlement confirm: the cycle logs an
`error` JobLog with action `entry_not_confirmed` and never creates an
`OpenPosition` row. -/
theorem c10_mock_entry_not_confirmed (pair : Pair) (signals : SignalResult)
    (current_price_a current_price_b : ℚ) (db_has_position : Bool)
    (hps : 0 < entry_position_size mock_client.balance pair.position_size_pct)
    (hfire : (evaluate_entry signals pair.entry_z pair.max_half_life pair.rsi_upper
        pair.rsi_lower (entry_position_size mock_client.balance pair.position_size_pct)
        (entry_position_size mock_client.balance pair.position_size_pct *
          pair.min_equity_pct / 100) pair.leverage).should_enter = true) :
    Effect.jobLog "error" (some "entry_not_confirmed") ∈
      handle_entry (some mock_client) pair signals current_price_a current_price_b
        db_has_position ∧
    ∀ row, Effect.createPosition row ∉
      handle_entry (some mock_client) pair signals current_price_a current_price_b
        db_has_position := by
  simp only [handle_entry]
  rw [if_neg (not_le.2 hps)]
  rw [hfire, if_neg (by decide : ¬ (true = false))]
  simp only [mock_place_success]
  rw [if_neg (by simp : ¬ ((true : Bool) = false ∨ (true : Bool) = false))]
  rw [if_pos (Or.inl (by simp [mock_client] : ¬ pair.lighter_market_a ∈
    (mock_client.get_positions.map (fun p => p.market_index))))]
  constructor
  · simp
  · intro row
    simp

/-- Claim C10 witness: a concrete enabled pair with inactive filters and a
strong signal (`z = -3`, `entry_z = 2`) in mock mode ends with
`entry_not_confirmed` and no position row. -/
theorem c10_mock_entry_not_confirmed_witness :
    (0 : ℚ) < entry_position_size mock_client.balance
      ({ id := 7, lighter_market_a := 1, lighter_market_b := 2, max_half_life := 0,
         rsi_upper := 100, rsi_lower := 0 } : Pair).position_size_pct ∧
    Effect.jobLog "error" (some "entry_not_confirmed") ∈
      handle_entry (some mock_client)
        { id := 7, lighter_market_a := 1, lighter_market_b := 2, max_half_life := 0,
          rsi_upper := 100, rsi_lower := 0 }
        ⟨-3, 1, none, none, 0, 0, none⟩ 100 50 false ∧
    ∀ row, Effect.createPosition row ∉
      handle_entry (some mock_client)
        { id := 7, lighter_market_a := 1, lighter_market_b := 2, max_half_life := 0,
          rsi_upper := 100, rsi_lower := 0 }
        ⟨-3, 1, none, none, 0, 0, none⟩ 100 50 false :=
  ⟨by norm_num [entry_position_size, mock_client],
   (c10_mock_entry_not_confirmed
      { id := 7, lighter_market_a := 1, lighter_market_b := 2, max_half_life := 0,
        rsi_upper := 100, rsi_lower := 0 }
      ⟨-3, 1, none, none, 0, 0, none⟩ 100 50 false
      (by norm_num [entry_position_size, mock_client])
      (by norm_num [evaluate_entry, entry_position_size, mock_client,
        hl_in_range, rsi_blocks])).1,
   (c10_mock_entry_not_confirmed
      { id := 7, lighter_market_a := 1, lighter_market_b := 2, max_half_life := 0,
        rsi_upper := 100, rsi_lower := 0 }
      ⟨-3, 1, none, none, 0, 0, none⟩ 100 50 false
      (by norm_num [entry_position_size, mock_client])
      (by norm_num [evaluate_entry, entry_position_size, mock_client,
        hl_in_range, rsi_blocks])).2⟩

end TradingService
